import Mathlib

/-!
Verification of `salt/states/mysql_grants.py`: the `present` and `absent`
reconciliation functions for MySQL grants.

The module is embedded shallowly.  The external collaborator
(`__salt__['mysql.grant_exists']`, `mysql.grant_add`, `mysql.grant_revoke`)
is modelled as a `Backend` record of response functions, and each embedded
entry point returns, besides the Python result dict, the ordered list of
backend calls it issued, so that side-effect (frame) claims can be stated.

Python `None`-able strings are `Option String`; the tri-state result of
`grant_exists` (`True` / `False` / `None`) is `Option Bool`.  Python string
formatting of a possibly-`None` argument is `pyStr` (`None` prints as
`"None"`).  The result dict `{'name', 'changes', 'result', 'comment'}` is
the record `StateReturn`; `changes` is an association list (the dict holds
at most one key here).
-/

/-- Python `str()` applied to an optional string (as `'{0}'.format(x)` does). -/
def pyStr : Option String → String
  | none => "None"
  | some s => s

/-- One call to the external mysql backend, with the arguments passed. -/
inductive BackendCall where
  | grantExists (privileges database user : Option String) (host : String)
      (grant_option escape : Bool)
  | grantRevoke (privileges database user : Option String) (host : String)
      (grant_option : Bool)
  | grantAdd (privileges database user : Option String) (host : String)
      (grant_option escape : Bool)
deriving DecidableEq, Repr

/-- A call mutates backend state iff it is a revoke or an add. -/
def BackendCall.isWrite : BackendCall → Bool
  | .grantExists .. => false
  | .grantRevoke .. => true
  | .grantAdd .. => true

/-- The external database-grant collaborator: response of each backend
function to the arguments it is called with (one invocation of
`present`/`absent` calls each function at most once). -/
structure Backend where
  grant_exists : Option String → Option String → Option String → String →
      Bool → Bool → Option Bool
  grant_revoke : Option String → Option String → Option String → String →
      Bool → Bool
  grant_add : Option String → Option String → Option String → String →
      Bool → Bool → Bool

/-- The Python return dict `{'name', 'changes', 'result', 'comment'}`. -/
structure StateReturn where
  name : String
  changes : List (String × String)
  result : Option Bool
  comment : String
deriving DecidableEq, Repr

/-- `if privileges is None and grant is not None: privileges = grant`
(lines 86-87 and 170-171). -/
def effPriv (privileges grant : Option String) : Option String :=
  if privileges = none ∧ grant ≠ none then grant else privileges

/-- `'Grant {0} on {1} to {2}@{3} is already present'.format(...)` (line 89). -/
def presentAlreadyComment (privileges database user : Option String)
    (host : String) : String :=
  "Grant " ++ pyStr privileges ++ " on " ++ pyStr database ++ " to " ++
    pyStr user ++ "@" ++ host ++ " is already present"

/-- `'MySQL grant {0} is set to be created'.format(name)` (line 106). -/
def presentTestComment (name : String) : String :=
  "MySQL grant " ++ name ++ " is set to be created"

/-- Lines 116-118: failure comment of the corrective revoke. -/
def presentRevokeFailComment (privileges database user : Option String)
    (host : String) : String :=
  "Failed to remove previous grant before applying new grant: \"GRANT " ++
    pyStr privileges ++ " ON " ++ pyStr database ++ " TO " ++ pyStr user ++
    "@" ++ host ++ "\""

/-- `'Grant {0} on {1} to {2}@{3} has been added'.format(...)` (lines 124-125). -/
def presentAddedComment (privileges database user : Option String)
    (host : String) : String :=
  "Grant " ++ pyStr privileges ++ " on " ++ pyStr database ++ " to " ++
    pyStr user ++ "@" ++ host ++ " has been added"

/-- `'Failed to execute: "GRANT {0} ON {1} TO {2}@{3}"'.format(...)`
(lines 128-129). -/
def presentAddFailComment (privileges database user : Option String)
    (host : String) : String :=
  "Failed to execute: \"GRANT " ++ pyStr privileges ++ " ON " ++
    pyStr database ++ " TO " ++ pyStr user ++ "@" ++ host ++ "\""

/-- `'MySQL grant {0} is set to be revoked'.format(name)` (lines 183-184). -/
def absentTestComment (name : String) : String :=
  "MySQL grant " ++ name ++ " is set to be revoked"

/-- Line 192: the template is assigned, and the result of
`ret['comment'].format(...)` on line 193 is discarded, so the comment stays
the literal unformatted template. -/
def absentRevokedComment : String :=
  "Grant \x7b0\x7d on \x7b1\x7d for \x7b2\x7d@\x7b3\x7d has been revoked"

/-- Lines 198-204: the fallback comment of `absent`. -/
def absentFallbackComment (privileges database user : Option String)
    (host : String) : String :=
  "Grant " ++ pyStr privileges ++ " on " ++ pyStr database ++ " to " ++
    pyStr user ++ "@" ++ host ++ " is not present, so it cannot be revoked"

/-- `present(name, privileges, grant, database, user, host, grant_option,
escape)` from `mysql_grants.py` lines 53-131, with the ambient `__opts__['test']`
flag passed as `test` and the `__salt__` backend as `B`.  Returns the result
dict together with the ordered trace of backend calls issued. -/
def present (B : Backend) (test : Bool) (name : String)
    (privileges grant database user : Option String) (host : String)
    (grant_option escape : Bool) : StateReturn × List BackendCall :=
  let priv := effPriv privileges grant
  let ret : StateReturn :=
    { name := name, changes := [], result := some true,
      comment := presentAlreadyComment priv database user host }
  let ge := B.grant_exists priv database user host grant_option escape
  let calls := [BackendCall.grantExists priv database user host grant_option escape]
  if ge = some true then
    (ret, calls)
  else if test then
    ({ ret with result := none, comment := presentTestComment name }, calls)
  else
    let step :=
      if ge = none then
        let calls2 := calls ++
          [BackendCall.grantRevoke (some "ALL PRIVILEGES") database user host grant_option]
        if B.grant_revoke (some "ALL PRIVILEGES") database user host grant_option = false then
          ({ ret with comment := presentRevokeFailComment priv database user host,
                      result := some false }, calls2)
        else
          (ret, calls2)
      else
        (ret, calls)
    let calls3 := step.2 ++
      [BackendCall.grantAdd priv database user host grant_option escape]
    if B.grant_add priv database user host grant_option escape then
      ({ step.1 with comment := presentAddedComment priv database user host,
                     changes := step.1.changes ++ [(name, "Present")] }, calls3)
    else
      ({ step.1 with comment := presentAddFailComment priv database user host,
                     result := some false }, calls3)

/-- `absent(name, privileges, grant, database, user, host, grant_option,
escape)` from `mysql_grants.py` lines 134-205.  The guard on line 174 is the
Python truthiness of the tri-state `grant_exists` result, so only `some true`
enters the revoke branch. -/
def absent (B : Backend) (test : Bool) (name : String)
    (privileges grant database user : Option String) (host : String)
    (grant_option escape : Bool) : StateReturn × List BackendCall :=
  let ret : StateReturn :=
    { name := name, changes := [], result := some true, comment := "" }
  let priv := effPriv privileges grant
  let ge := B.grant_exists priv database user host grant_option escape
  let calls := [BackendCall.grantExists priv database user host grant_option escape]
  if ge = some true then
    if test then
      ({ ret with result := none, comment := absentTestComment name }, calls)
    else
      let calls2 := calls ++
        [BackendCall.grantRevoke priv database user host grant_option]
      if B.grant_revoke priv database user host grant_option then
        ({ ret with comment := absentRevokedComment,
                    changes := [(name, "Absent")] }, calls2)
      else
        ({ ret with comment := absentFallbackComment priv database user host },
          calls2)
  else
    ({ ret with comment := absentFallbackComment priv database user host }, calls)

/-- A backend whose three functions ignore their arguments and answer
constantly; used to instantiate theorems at concrete inputs. -/
def constBackend (ge : Option Bool) (rev ad : Bool) : Backend :=
  { grant_exists := fun _ _ _ _ _ _ => ge
    grant_revoke := fun _ _ _ _ _ => rev
    grant_add := fun _ _ _ _ _ _ => ad }

example :
    (present (constBackend (some false) true true) false "frank_exampledb"
      (some "select,insert") none (some "exampledb.*") (some "frank")
      "localhost" false true).1.changes = [("frank_exampledb", "Present")] := by
  decide

example :
    (absent (constBackend none true true) false "n"
      (some "select") none (some "db.*") (some "frank")
      "localhost" false true).2 =
    [BackendCall.grantExists (some "select") (some "db.*") (some "frank")
      "localhost" false true] := by
  decide

/-- C1: when `present` runs with the test flag off and the existence check is
indeterminate (`None`), the backend trace is exactly the existence check, then
one revoke with privileges `"ALL PRIVILEGES"` and the spec's database, user,
host and grant_option, then the add — the add is issued whatever the revoke
answered, and no other mutation call occurs. -/
theorem present_conflict_trace (B : Backend) (name : String)
    (privileges grant database user : Option String) (host : String)
    (grant_option escape : Bool)
    (h : B.grant_exists (effPriv privileges grant) database user host
      grant_option escape = none) :
    (present B false name privileges grant database user host
      grant_option escape).2 =
    [BackendCall.grantExists (effPriv privileges grant) database user host
        grant_option escape,
      BackendCall.grantRevoke (some "ALL PRIVILEGES") database user host
        grant_option,
      BackendCall.grantAdd (effPriv privileges grant) database user host
        grant_option escape] := by
  cases hr : B.grant_revoke (some "ALL PRIVILEGES") database user host grant_option <;>
    cases ha : B.grant_add (effPriv privileges grant) database user host
      grant_option escape <;>
    simp [present, h, hr, ha]

theorem present_conflict_trace_witness :
    (constBackend none true true).grant_exists
        (effPriv (some "select") none) (some "db.*") (some "frank")
        "localhost" false true = none ∧
    (present (constBackend none true true) false "n" (some "select") none
      (some "db.*") (some "frank") "localhost" false true).2 =
    [BackendCall.grantExists (effPriv (some "select") none) (some "db.*")
        (some "frank") "localhost" false true,
      BackendCall.grantRevoke (some "ALL PRIVILEGES") (some "db.*")
        (some "frank") "localhost" false,
      BackendCall.grantAdd (effPriv (some "select") none) (some "db.*")
        (some "frank") "localhost" false true] :=
  ⟨rfl, present_conflict_trace (constBackend none true true) "n" (some "select")
    none (some "db.*") (some "frank") "localhost" false true rfl⟩

/-- C6: when the existence check answers `True`, `present` returns at once
(in either mode) with empty changes, result `True`, the "already present"
comment, and no mutation call in the trace. -/
theorem present_already_noop (B : Backend) (test : Bool) (name : String)
    (privileges grant database user : Option String) (host : String)
    (grant_option escape : Bool)
    (h : B.grant_exists (effPriv privileges grant) database user host
      grant_option escape = some true) :
    (present B test name privileges grant database user host
        grant_option escape).1 =
      { name := name, changes := [], result := some true,
        comment := presentAlreadyComment (effPriv privileges grant)
          database user host } ∧
    ((present B test name privileges grant database user host
        grant_option escape).2.filter BackendCall.isWrite) = [] := by
  simp [present, h, BackendCall.isWrite, List.filter]

theorem present_already_noop_witness :
    (constBackend (some true) true true).grant_exists
        (effPriv (some "select") none) (some "db.*") (some "frank")
        "localhost" false true = some true ∧
    ((present (constBackend (some true) true true) false "n" (some "select")
        none (some "db.*") (some "frank") "localhost" false true).1 =
      { name := "n", changes := [], result := some true,
        comment := presentAlreadyComment (effPriv (some "select") none)
          (some "db.*") (some "frank") "localhost" } ∧
    ((present (constBackend (some true) true true) false "n" (some "select")
        none (some "db.*") (some "frank") "localhost" false true).2.filter
        BackendCall.isWrite) = []) :=
  ⟨rfl, present_already_noop (constBackend (some true) true true) false "n"
    (some "select") none (some "db.*") (some "frank") "localhost" false true rfl⟩

/-- C7: not in test mode with the existence check answering `False`, the
outcome of `present` is decided by `grant_add`: on success, changes map the
name to `"Present"`, result is `True` and the comment says the grant has been
added; on failure, changes stay empty, result is `False` and the comment is
the failure message. -/
theorem present_add_outcome (B : Backend) (name : String)
    (privileges grant database user : Option String) (host : String)
    (grant_option escape : Bool)
    (h : B.grant_exists (effPriv privileges grant) database user host
      grant_option escape = some false) :
    (present B false name privileges grant database user host
        grant_option escape).1.changes =
      (if B.grant_add (effPriv privileges grant) database user host
          grant_option escape then [(name, "Present")] else []) ∧
    (present B false name privileges grant database user host
        grant_option escape).1.result =
      (if B.grant_add (effPriv privileges grant) database user host
          grant_option escape then some true else some false) ∧
    (present B false name privileges grant database user host
        grant_option escape).1.comment =
      (if B.grant_add (effPriv privileges grant) database user host
          grant_option escape then
        presentAddedComment (effPriv privileges grant) database user host
      else
        presentAddFailComment (effPriv privileges grant) database user host) := by
  cases ha : B.grant_add (effPriv privileges grant) database user host
      grant_option escape <;>
    simp [present, h, ha]

theorem present_add_outcome_witness :
    (constBackend (some false) true true).grant_exists
        (effPriv (some "select,insert") none) (some "exampledb.*")
        (some "frank") "localhost" false true = some false ∧
    ((present (constBackend (some false) true true) false "n"
        (some "select,insert") none (some "exampledb.*") (some "frank")
        "localhost" false true).1.changes =
      (if (constBackend (some false) true true).grant_add
          (effPriv (some "select,insert") none) (some "exampledb.*")
          (some "frank") "localhost" false true then [("n", "Present")]
        else []) ∧
    (present (constBackend (some false) true true) false "n"
        (some "select,insert") none (some "exampledb.*") (some "frank")
        "localhost" false true).1.result =
      (if (constBackend (some false) true true).grant_add
          (effPriv (some "select,insert") none) (some "exampledb.*")
          (some "frank") "localhost" false true then some true
        else some false) ∧
    (present (constBackend (some false) true true) false "n"
        (some "select,insert") none (some "exampledb.*") (some "frank")
        "localhost" false true).1.comment =
      (if (constBackend (some false) true true).grant_add
          (effPriv (some "select,insert") none) (some "exampledb.*")
          (some "frank") "localhost" false true then
        presentAddedComment (effPriv (some "select,insert") none)
          (some "exampledb.*") (some "frank") "localhost"
      else
        presentAddFailComment (effPriv (some "select,insert") none)
          (some "exampledb.*") (some "frank") "localhost")) :=
  ⟨rfl, present_add_outcome (constBackend (some false) true true) "n"
    (some "select,insert") none (some "exampledb.*") (some "frank")
    "localhost" false true rfl⟩

/-- C5: against a backend that starts absent (`grant_exists` answers `False`
on the first call, the add succeeds, and `grant_exists` answers `True` on the
second call), running `present` twice with the identical spec gives changes
mapping the name to `"Present"` with result `True` the first time, and empty
changes, result `True` and no mutation call the second time: repeated
invocation converges to a no-op. -/
theorem present_idempotent (B1 B2 : Backend) (name : String)
    (privileges grant database user : Option String) (host : String)
    (grant_option escape : Bool)
    (h1 : B1.grant_exists (effPriv privileges grant) database user host
      grant_option escape = some false)
    (h2 : B1.grant_add (effPriv privileges grant) database user host
      grant_option escape = true)
    (h3 : B2.grant_exists (effPriv privileges grant) database user host
      grant_option escape = some true) :
    (present B1 false name privileges grant database user host
        grant_option escape).1.changes = [(name, "Present")] ∧
    (present B1 false name privileges grant database user host
        grant_option escape).1.result = some true ∧
    (present B2 false name privileges grant database user host
        grant_option escape).1.changes = [] ∧
    (present B2 false name privileges grant database user host
        grant_option escape).1.result = some true ∧
    ((present B2 false name privileges grant database user host
        grant_option escape).2.filter BackendCall.isWrite) = [] := by
  simp [present, h1, h2, h3, BackendCall.isWrite, List.filter]

theorem present_idempotent_witness :
    (constBackend (some false) true true).grant_exists
        (effPriv (some "select,insert") none) (some "exampledb.*")
        (some "frank") "localhost" false true = some false ∧
    (constBackend (some false) true true).grant_add
        (effPriv (some "select,insert") none) (some "exampledb.*")
        (some "frank") "localhost" false true = true ∧
    (constBackend (some true) true true).grant_exists
        (effPriv (some "select,insert") none) (some "exampledb.*")
        (some "frank") "localhost" false true = some true ∧
    ((present (constBackend (some false) true true) false "n"
        (some "select,insert") none (some "exampledb.*") (some "frank")
        "localhost" false true).1.changes = [("n", "Present")] ∧
    (present (constBackend (some false) true true) false "n"
        (some "select,insert") none (some "exampledb.*") (some "frank")
        "localhost" false true).1.result = some true ∧
    (present (constBackend (some true) true true) false "n"
        (some "select,insert") none (some "exampledb.*") (some "frank")
        "localhost" false true).1.changes = [] ∧
    (present (constBackend (some true) true true) false "n"
        (some "select,insert") none (some "exampledb.*") (some "frank")
        "localhost" false true).1.result = some true ∧
    ((present (constBackend (some true) true true) false "n"
        (some "select,insert") none (some "exampledb.*") (some "frank")
        "localhost" false true).2.filter BackendCall.isWrite) = []) :=
  ⟨rfl, rfl, rfl, present_idempotent (constBackend (some false) true true)
    (constBackend (some true) true true) "n" (some "select,insert") none
    (some "exampledb.*") (some "frank") "localhost" false true rfl rfl rfl⟩

/-- C8: passing the deprecated `grant` parameter with `privileges` unset
gives exactly the same result record and backend trace as passing the same
string as `privileges`, for `present` and for `absent`; and when `privileges`
is given, the value of `grant` is ignored by both functions. -/
theorem grant_alias_equivalent (B : Backend) (test : Bool) (name g : String)
    (database user : Option String) (host : String)
    (grant_option escape : Bool) :
    (present B test name none (some g) database user host grant_option escape =
      present B test name (some g) none database user host grant_option escape) ∧
    (absent B test name none (some g) database user host grant_option escape =
      absent B test name (some g) none database user host grant_option escape) ∧
    ∀ gr : Option String,
      (present B test name (some g) gr database user host grant_option escape =
        present B test name (some g) none database user host grant_option escape) ∧
      (absent B test name (some g) gr database user host grant_option escape =
        absent B test name (some g) none database user host grant_option escape) := by
  refine ⟨?_, ?_, fun gr => ⟨?_, ?_⟩⟩ <;> simp [present, absent, effPriv]

/-- C9: on a successful revoke (existence check `True`, not test mode,
`grant_revoke` returning `True`), the comment returned by `absent` is the
literal unformatted template string, braces and all: the formatted string is
computed on line 193 but its value is discarded, so none of the spec's
values appear in the comment. -/
theorem absent_revoke_comment_unformatted (B : Backend) (name : String)
    (privileges grant database user : Option String) (host : String)
    (grant_option escape : Bool)
    (h1 : B.grant_exists (effPriv privileges grant) database user host
      grant_option escape = some true)
    (h2 : B.grant_revoke (effPriv privileges grant) database user host
      grant_option = true) :
    (absent B false name privileges grant database user host
        grant_option escape).1.comment =
      "Grant \x7b0\x7d on \x7b1\x7d for \x7b2\x7d@\x7b3\x7d has been revoked" := by
  simp [absent, h1, h2, absentRevokedComment]

theorem absent_revoke_comment_unformatted_witness :
    (constBackend (some true) true true).grant_exists
        (effPriv (some "select") none) (some "db.*") (some "frank")
        "localhost" false true = some true ∧
    (constBackend (some true) true true).grant_revoke
        (effPriv (some "select") none) (some "db.*") (some "frank")
        "localhost" false = true ∧
    (absent (constBackend (some true) true true) false "n" (some "select")
        none (some "db.*") (some "frank") "localhost" false true).1.comment =
      "Grant \x7b0\x7d on \x7b1\x7d for \x7b2\x7d@\x7b3\x7d has been revoked" :=
  ⟨rfl, rfl, absent_revoke_comment_unformatted (constBackend (some true) true true)
    "n" (some "select") none (some "db.*") (some "frank") "localhost"
    false true rfl rfl⟩

/-- C10: not in test mode, with an indeterminate existence check, a failed
corrective revoke and a successful add, `present` returns result `False`
together with changes mapping the name to `"Present"` and the "has been
added" comment: a recorded successful change coexists with a failure
result. -/
theorem present_revoke_fail_add_ok (B : Backend) (name : String)
    (privileges grant database user : Option String) (host : String)
    (grant_option escape : Bool)
    (h1 : B.grant_exists (effPriv privileges grant) database user host
      grant_option escape = none)
    (h2 : B.grant_revoke (some "ALL PRIVILEGES") database user host
      grant_option = false)
    (h3 : B.grant_add (effPriv privileges grant) database user host
      grant_option escape = true) :
    (present B false name privileges grant database user host
        grant_option escape).1.result = some false ∧
    (present B false name privileges grant database user host
        grant_option escape).1.changes = [(name, "Present")] ∧
    (present B false name privileges grant database user host
        grant_option escape).1.comment =
      presentAddedComment (effPriv privileges grant) database user host := by
  simp [present, h1, h2, h3]

theorem present_revoke_fail_add_ok_witness :
    (constBackend none false true).grant_exists
        (effPriv (some "select") none) (some "db.*") (some "frank")
        "localhost" false true = none ∧
    (constBackend none false true).grant_revoke
        (some "ALL PRIVILEGES") (some "db.*") (some "frank")
        "localhost" false = false ∧
    (constBackend none false true).grant_add
        (effPriv (some "select") none) (some "db.*") (some "frank")
        "localhost" false true = true ∧
    ((present (constBackend none false true) false "n" (some "select") none
        (some "db.*") (some "frank") "localhost" false true).1.result =
      some false ∧
    (present (constBackend none false true) false "n" (some "select") none
        (some "db.*") (some "frank") "localhost" false true).1.changes =
      [("n", "Present")] ∧
    (present (constBackend none false true) false "n" (some "select") none
        (some "db.*") (some "frank") "localhost" false true).1.comment =
      presentAddedComment (effPriv (some "select") none) (some "db.*")
        (some "frank") "localhost") :=
  ⟨rfl, rfl, rfl, present_revoke_fail_add_ok (constBackend none false true)
    "n" (some "select") none (some "db.*") (some "frank") "localhost"
    false true rfl rfl rfl⟩

/-- C3: not in test mode, with the existence check answering `True` and
`grant_revoke` failing, `absent` falls through to the generic "not present,
so it cannot be revoked" comment with result still `True` and empty changes:
the failed revoke is misreported as an already-absent state. -/
theorem absent_revoke_fail_misreported (B : Backend) (name : String)
    (privileges grant database user : Option String) (host : String)
    (grant_option escape : Bool)
    (h1 : B.grant_exists (effPriv privileges grant) database user host
      grant_option escape = some true)
    (h2 : B.grant_revoke (effPriv privileges grant) database user host
      grant_option = false) :
    (absent B false name privileges grant database user host
        grant_option escape).1.comment =
      absentFallbackComment (effPriv privileges grant) database user host ∧
    (absent B false name privileges grant database user host
        grant_option escape).1.result = some true ∧
    (absent B false name privileges grant database user host
        grant_option escape).1.changes = [] := by
  simp [absent, h1, h2]

theorem absent_revoke_fail_misreported_witness :
    (constBackend (some true) false true).grant_exists
        (effPriv (some "select") none) (some "db.*") (some "frank")
        "localhost" false true = some true ∧
    (constBackend (some true) false true).grant_revoke
        (effPriv (some "select") none) (some "db.*") (some "frank")
        "localhost" false = false ∧
    ((absent (constBackend (some true) false true) false "n" (some "select")
        none (some "db.*") (some "frank") "localhost" false true).1.comment =
      absentFallbackComment (effPriv (some "select") none) (some "db.*")
        (some "frank") "localhost" ∧
    (absent (constBackend (some true) false true) false "n" (some "select")
        none (some "db.*") (some "frank") "localhost" false true).1.result =
      some true ∧
    (absent (constBackend (some true) false true) false "n" (some "select")
        none (some "db.*") (some "frank") "localhost" false true).1.changes =
      []) :=
  ⟨rfl, rfl, absent_revoke_fail_misreported (constBackend (some true) false true)
    "n" (some "select") none (some "db.*") (some "frank") "localhost"
    false true rfl rfl⟩

/-- C2 fails on the code: line 174 tests the Python truthiness of the
tri-state `grant_exists` result, and `None` is falsy, so an indeterminate
check is handled like `False`, not like `True`.  At this concrete input the
check answers `None` outside test mode, yet `absent` issues no revoke call
and returns the fallback "not present" comment instead of revoking. -/
theorem absent_indeterminate_not_like_true :
    ((absent (constBackend none true true) false "n" (some "select") none
        (some "db.*") (some "frank") "localhost" false true).2.filter
        BackendCall.isWrite) = [] ∧
    (absent (constBackend none true true) false "n" (some "select") none
        (some "db.*") (some "frank") "localhost" false true).1.comment =
      absentFallbackComment (some "select") (some "db.*") (some "frank")
        "localhost" := by
  constructor <;> rfl

/-- C2 amended: only a `True` existence check enters the revoke branch of
`absent` — dry-run then reports "set to be revoked" with result `None` and no
mutation, otherwise exactly one `grant_revoke` is issued; an indeterminate
(`None`) check is handled like `False`: no mutation call, result `True`, and
the fallback "not present" comment. -/
theorem absent_tristate_behavior (B : Backend) (test : Bool) (name : String)
    (privileges grant database user : Option String) (host : String)
    (grant_option escape : Bool) :
    ((absent B test name privileges grant database user host
        grant_option escape).2.filter BackendCall.isWrite) =
      (if B.grant_exists (effPriv privileges grant) database user host
          grant_option escape = some true ∧ test = false then
        [BackendCall.grantRevoke (effPriv privileges grant) database user
          host grant_option]
      else []) ∧
    (absent B test name privileges grant database user host
        grant_option escape).1.result =
      (if B.grant_exists (effPriv privileges grant) database user host
          grant_option escape = some true ∧ test = true then none
      else some true) ∧
    (absent B test name privileges grant database user host
        grant_option escape).1.comment =
      (if B.grant_exists (effPriv privileges grant) database user host
          grant_option escape = some true then
        (if test then absentTestComment name
        else if B.grant_revoke (effPriv privileges grant) database user host
            grant_option then absentRevokedComment
        else absentFallbackComment (effPriv privileges grant) database user host)
      else absentFallbackComment (effPriv privileges grant) database user host) := by
  rcases hge : B.grant_exists (effPriv privileges grant) database user host
      grant_option escape with _ | b
  · cases test <;> simp [absent, hge, BackendCall.isWrite, List.filter]
  · cases b <;> cases test <;>
      cases hr : B.grant_revoke (effPriv privileges grant) database user host
        grant_option <;>
      simp [absent, hge, hr, BackendCall.isWrite, List.filter]

/-- C4 fails on the code as stated: with the existence check answering
`True`, `present` in test mode returns before the dry-run branch with result
`True` ("already present"), not `None`.  (The no-mutation half of the claim
does hold; see the amended theorem.) -/
theorem dry_run_result_not_always_none :
    (present (constBackend (some true) true true) true "n" (some "select")
        none (some "db.*") (some "frank") "localhost" false true).1.result ≠
      none := by
  decide

/-- C4 amended: in test (dry-run) mode neither `present` nor `absent` issues
any mutation call, for every existence outcome; the result is `None` with the
"set to be created" / "set to be revoked" comment exactly when an action would
be needed (`present`: check not `True`; `absent`: check `True`), and otherwise
the result stays `True` with the no-op comment ("already present" for
`present`, the "not present" fallback for `absent`). -/
theorem dry_run_never_mutates (B : Backend) (name : String)
    (privileges grant database user : Option String) (host : String)
    (grant_option escape : Bool) :
    ((present B true name privileges grant database user host
        grant_option escape).2.filter BackendCall.isWrite) = [] ∧
    ((absent B true name privileges grant database user host
        grant_option escape).2.filter BackendCall.isWrite) = [] ∧
    (present B true name privileges grant database user host
        grant_option escape).1.result =
      (if B.grant_exists (effPriv privileges grant) database user host
          grant_option escape = some true then some true else none) ∧
    (present B true name privileges grant database user host
        grant_option escape).1.comment =
      (if B.grant_exists (effPriv privileges grant) database user host
          grant_option escape = some true then
        presentAlreadyComment (effPriv privileges grant) database user host
      else presentTestComment name) ∧
    (absent B true name privileges grant database user host
        grant_option escape).1.result =
      (if B.grant_exists (effPriv privileges grant) database user host
          grant_option escape = some true then none else some true) ∧
    (absent B true name privileges grant database user host
        grant_option escape).1.comment =
      (if B.grant_exists (effPriv privileges grant) database user host
          grant_option escape = some true then absentTestComment name
      else absentFallbackComment (effPriv privileges grant) database user host) := by
  rcases hge : B.grant_exists (effPriv privileges grant) database user host
      grant_option escape with _ | b
  · simp [present, absent, hge, BackendCall.isWrite, List.filter]
  · cases b <;> simp [present, absent, hge, BackendCall.isWrite, List.filter]
